import Mathlib

/-!
Verification development for the NiftyMIC repository slice consisting of
`bin/reconstructVolumeFromSlices.py` and
`src/py/preprocessing/N4BiasFieldCorrection.py`.

The script is embedded as a trace-producing function: running the script on a
given argument record and a given list of stackList (what the data reader yields)
produces the ordered list of observable events (reader construction, data
read, solver construction/run, reconstruction writes) together with an
optional raised error.  Solver numerics are not under `src/`, so a solver run
is represented symbolically: its output is a `Recon` value tagged with the
solver kind and the initial estimate it was handed, which is exactly the data
flow the script determines.
-/

namespace Script

/-- Solver flavors instantiated by the script. -/
inductive SolverKind
  | tikhonov
  | admm
  | primalDual
deriving DecidableEq, Repr

/-- The two data readers the script can construct. -/
inductive ReaderKind
  | imageSlicesDirectoryReader
  | multipleImagesReader
deriving DecidableEq, Repr

/-- Reconstruction volumes, tracked by provenance.  `isotropicallyResampled`
and `resampledToSpace` are the two ways the script builds `recon0` from the
target stack; `solverOutput k init` is the value of `get_reconstruction` after
a solver of kind `k` seeded with `init` has run; `stackCopy` is
`Stack.from_stack applied` to a reconstruction. -/
inductive Recon
  | isotropicallyResampled (stackIdx : Nat) (isotropicResolution : Option ℚ)
      (extraFrame : Nat)
  | resampledToSpace (stackIdx : Nat) (spaceFilename : String)
  | solverOutput (kind : SolverKind) (init : Recon)
  | stackCopy (r : Recon)
deriving DecidableEq, Repr

/-- Errors the script can raise before completing. -/
inductive ScriptError
  | nameError (missing : String)
  | ioError (msg : String)
  | indexError
deriving DecidableEq, Repr

/-- Whether an error is of the configuration-error class of the spec
taxonomy: the input-error exception the script intends to raise
(`Exceptions.IOError`). -/
def ScriptError.isConfigurationError : ScriptError → Bool
  | .ioError _ => true
  | _ => false

/-- Observable events of a script run, in program order. -/
inductive Event
  | logScriptExecution
  | constructReader (kind : ReaderKind)
  | readData
  | constructSolver (kind : SolverKind) (regType : Option String)
      (algType : Option String) (init : Recon)
  | runSolver (kind : SolverKind)
  | writeRecon (dirOutput : String) (filename : String) (recon : Recon)
deriving DecidableEq, Repr

/-- Argument record produced by the argument parser (defaults as in the
script). -/
structure Args where
  dir_input : Option String := none
  filenames : Option (List String) := none
  image_selection : Option (List String) := none
  dir_output : String := "results/"
  suffix_mask : String := "_mask"
  target_stack_index : Nat := 0
  extra_frame_target : Nat := 10
  isotropic_resolution : Option ℚ := none
  reconstruction_space : Option String := none
  minimizer : String := "lsmr"
  iter_max : Nat := 10
  reg_type : String := "TK1"
  data_loss : String := "linear"
  data_loss_scale : ℚ := 1
  alpha : ℚ := 1/50
  rho : ℚ := 1/2
  tv_solver : String := "PD"
  pd_alg_type : String := "ALG2"
  iterations : Nat := 10
  provide_comparison : Bool := true
  log_script_execution : Bool := true
  verbose : Bool := true
deriving DecidableEq, Repr

/-- Module-level names the script imports (`import ... as name` /
`from ... import name`).  `Exceptions` is not among them. -/
def scriptImportedNames : List String :=
  ["sitk", "argparse", "np", "sys", "os", "ph", "sitkh", "dr", "st", "tk",
   "admm", "pd", "InputArgparser"]

/-- Evaluating a statement `raise Exceptions.IOError(msg)` in the script:
Python resolves the name `Exceptions` first, and since it is not among the
imported names of the script, a `NameError` is raised in place of the intended
input error. -/
def raiseExceptionsIOError (msg : String) : ScriptError :=
  if "Exceptions" ∈ scriptImportedNames then .ioError msg
  else .nameError "Exceptions"

/-- Outcome of a TV-solver dispatch. -/
inductive TVSolverChoice
  | admmSolver
  | primalDualSolver (algType : String)
  | noTVSolver
deriving DecidableEq, Repr

/-- The if/elif dispatch of the script (lines 143 and 163): `reg_type ==
"TV" and tv_solver == "ADMM"` selects the ADMM solver, otherwise `reg_type in
["TV", "huber"] and tv_solver == "PD"` selects the primal-dual solver with
variant `pd_alg_type`, otherwise no TV-type solver. -/
def dispatchTVSolver (regType tvSolver pdAlgType : String) : TVSolverChoice :=
  if regType = "TV" ∧ tvSolver = "ADMM" then .admmSolver
  else if (regType = "TV" ∨ regType = "huber") ∧ tvSolver = "PD" then
    .primalDualSolver pdAlgType
  else .noTVSolver

/-- Modelled from the spec: `get_setting_specific_filename` of the solver
classes is not under `src/`; the spec describes it as a deterministic
filename encoding the solver configuration. -/
def settingSpecificFilename (kind : SolverKind) (regType algType : Option String) :
    String :=
  "SRR_" ++ (match kind with
    | .tikhonov => "Tikhonov"
    | .admm => "ADMM"
    | .primalDual => "PrimalDual") ++
  (match regType with | some r => "_" ++ r | none => "") ++
  (match algType with | some a => "_" ++ a | none => "")

/-- The reconstruction-space seed `recon0`: without a reconstruction space the
target stack is isotropically resampled; with one, the target stack is
resampled onto that space. -/
def recon0Spec (args : Args) : Recon :=
  match args.reconstruction_space with
  | none => .isotropicallyResampled args.target_stack_index
      args.isotropic_resolution args.extra_frame_target
  | some space => .resampledToSpace args.target_stack_index space

/-- Events of the initial Tikhonov pass `SRR0`: constructed with the literal
`reg_type="TK1"` and initial reconstruction `recon0`, run, and its
reconstruction written to the output directory under its setting-specific
filename.  (Statistics computation and printing are not modelled.) -/
def tikhonovTrace (args : Args) : List Event :=
  [ .constructSolver .tikhonov (some "TK1") none (recon0Spec args),
    .runSolver .tikhonov,
    .writeRecon args.dir_output
      (settingSpecificFilename .tikhonov (some "TK1") none)
      (.solverOutput .tikhonov (recon0Spec args)) ]

/-- Events of the optional TV/Huber refinement pass: the dispatched solver is
seeded with `st.Stack.from_stack(SRR0.get_reconstruction())`, run, and its
reconstruction written. -/
def refinementTrace (args : Args) : List Event :=
  let init : Recon := .stackCopy (.solverOutput .tikhonov (recon0Spec args))
  match dispatchTVSolver args.reg_type args.tv_solver args.pd_alg_type with
  | .admmSolver =>
      [ .constructSolver .admm none none init,
        .runSolver .admm,
        .writeRecon args.dir_output (settingSpecificFilename .admm none none)
          (.solverOutput .admm init) ]
  | .primalDualSolver alg =>
      [ .constructSolver .primalDual (some args.reg_type) (some alg) init,
        .runSolver .primalDual,
        .writeRecon args.dir_output
          (settingSpecificFilename .primalDual (some args.reg_type) (some alg))
          (.solverOutput .primalDual init) ]
  | .noTVSolver => []

/-- Script flow after the data reader has yielded `stackList`: building `recon0`
indexes `stackList[target_stack_index]` in both reconstruction-space branches, so
an out-of-range index raises an `IndexError`; otherwise the Tikhonov pass and
the dispatched refinement run. -/
def mainAfterRead (args : Args) (stackList : List String) (pre : List Event) :
    List Event × Option ScriptError :=
  if args.target_stack_index < stackList.length then
    (pre ++ [.readData] ++ tikhonovTrace args ++ refinementTrace args, none)
  else
    (pre ++ [.readData], some .indexError)

/-- The main flow of `reconstructVolumeFromSlices.py`: optional script-log
write, input validation (both or neither of `--dir-input` and `--filenames`
raises), data-reader construction, data read, Tikhonov pass, dispatched
refinement.  `stackList` is the list the data reader yields. -/
def main_run (args : Args) (stackList : List String) :
    List Event × Option ScriptError :=
  let pre : List Event :=
    if args.log_script_execution then [.logScriptExecution] else []
  if args.filenames.isSome ∧ args.dir_input.isSome then
    (pre, some (raiseExceptionsIOError
      "Provide input by either --dir-input or --filenames but not both together"))
  else if args.dir_input.isSome then
    mainAfterRead args stackList
      (pre ++ [.constructReader .imageSlicesDirectoryReader])
  else if args.filenames.isSome then
    mainAfterRead args stackList
      (pre ++ [.constructReader .multipleImagesReader])
  else
    (pre, some (raiseExceptionsIOError
      "Provide input by either --dir-input or --filenames"))

end Script

namespace Preprocessing

/-- Image geometry metadata (size, spacing, origin, direction cosines). -/
structure ImageGeometry where
  size : List Nat
  spacing : List ℚ
  origin : List ℚ
  direction : List ℚ
deriving DecidableEq, Repr

/-- A SimpleITK image: geometry, voxel data (flattened), and pixel type id. -/
structure SitkImage where
  geometry : ImageGeometry
  data : List ℚ
  pixelID : Nat
deriving DecidableEq, Repr

/-- External SimpleITK `Resample(moving, referenceImage, transform,
interpolator, defaultValue, pixelID)`: the output image lives exactly on the
reference image grid; voxel values come from interpolating the moving image
(nearest neighbour here, abstracted as a flat-index lookup with the default
value outside the moving domain). -/
def Resample (moving reference : SitkImage) (defaultValue : ℚ)
    (pixelID : Nat) : SitkImage :=
  { geometry := reference.geometry
    data := (List.range reference.geometry.size.prod).map
      (fun i => moving.data.getD i defaultValue)
    pixelID := pixelID }

/-- A Stack: a 3D image, its mask, and a filename, as used by
`N4BiasFieldCorrection`. -/
structure Stack where
  sitk : SitkImage
  sitk_mask : SitkImage
  filename : String
deriving DecidableEq, Repr

/-- `Stack.get_filename`. -/
def Stack.get_filename (s : Stack) : String := s.filename

/-- `Stack.from_sitk_image(image, filename, image_mask)`. -/
def Stack.from_sitk_image (image : SitkImage) (filename : String)
    (image_mask : SitkImage) : Stack :=
  { sitk := image, sitk_mask := image_mask, filename := filename }

/-- The mask-geometry invariant of the spec: the mask of a Stack lives on the
same grid as the volume. -/
def Stack.maskMatchesVolumeGeometry (s : Stack) : Prop :=
  s.sitk_mask.geometry = s.sitk.geometry

instance (s : Stack) : Decidable s.maskMatchesVolumeGeometry := by
  unfold Stack.maskMatchesVolumeGeometry
  infer_instance

/-- Filesystem and process effects performed by `run_bias_field_correction`,
in program order. -/
inductive Effect
  | clearDirectory (dir : String)
  | writeImage (path : String) (image : SitkImage)
  | executeCommand (cmd : String)
  | readImage (path : String)
deriving DecidableEq, Repr

/-- Build directory of the compiled C++ tools (imported from `definitions`,
which is not under `src/`; only its role as a path constant matters). -/
def dir_build_cpp : String := "../build/cpp"

/-- State of an `N4BiasFieldCorrection` object. -/
structure N4BiasFieldCorrection where
  _stack : Stack
  _use_mask : Bool
  _use_verbose : Bool
  _dir_tmp : String
  _stack_corrected : Option Stack
deriving DecidableEq, Repr

/-- `get_bias_field_corrected_stack`. -/
def N4BiasFieldCorrection.get_bias_field_corrected_stack
    (self : N4BiasFieldCorrection) : Option Stack :=
  self._stack_corrected

/-- The command string assembled by `run_bias_field_correction`. -/
def N4BiasFieldCorrection.correctionCommand
    (self : N4BiasFieldCorrection) : String :=
  let filename_out := self._stack.get_filename
  dir_build_cpp ++ "/bin/runN4BiasFieldCorrectionImageFilter " ++
    "--f " ++ self._dir_tmp ++ filename_out ++ " " ++
    (if self._use_mask then
      "--fmask " ++ self._dir_tmp ++ filename_out ++ "_mask " else "") ++
    "--tout " ++ self._dir_tmp ++ " " ++
    "--m " ++ filename_out

/-- `run_bias_field_correction`: clears the temporary directory, writes the
input volume (and, when `_use_mask` is set, the mask), executes the external
filter command, reads back the corrected volume file, resamples the original
mask onto the corrected volume grid, and stores the corrected Stack.  The
content of the corrected file is produced by the external process and is
passed in as `correctedFileImage` (the value `sitk.ReadImage` returns).
Returns the updated object state and the ordered effect trace. -/
def N4BiasFieldCorrection.run_bias_field_correction
    (self : N4BiasFieldCorrection) (correctedFileImage : SitkImage) :
    N4BiasFieldCorrection × List Effect :=
  let filename_out := self._stack.get_filename
  let stack_corrected_sitk := correctedFileImage
  let stack_corrected_sitk_mask :=
    Resample self._stack.sitk_mask stack_corrected_sitk 0
      self._stack.sitk_mask.pixelID
  ({ self with
      _stack_corrected := some (Stack.from_sitk_image stack_corrected_sitk
        filename_out stack_corrected_sitk_mask) },
   [Effect.clearDirectory self._dir_tmp,
    Effect.writeImage (self._dir_tmp ++ filename_out ++ ".nii.gz")
      self._stack.sitk] ++
   (if self._use_mask then
      [Effect.writeImage (self._dir_tmp ++ filename_out ++ "_mask.nii.gz")
        self._stack.sitk_mask]
    else []) ++
   [Effect.executeCommand self.correctionCommand,
    Effect.readImage (self._dir_tmp ++ filename_out ++ "_corrected.nii.gz")])

end Preprocessing

namespace Operator

/-- Modelled from the spec: the forward operator implementation is not under
`src/`.  Per spec sections 4.1 and 8 it is a linear map from volume space to
slice space determined by a fixed sampling/interpolation kernel `K`:
`forward(V)_j = sum_i K j i * V i`. -/
def forward {m n : ℕ} (K : Fin m → Fin n → ℚ) (V : Fin n → ℚ) :
    Fin m → ℚ :=
  fun j => ∑ i, K j i * V i

/-- Modelled from the spec: the adjoint operator implementation is not under
`src/`.  Per spec sections 4.1 and 8 it accumulates slice-space residuals back
into volume space through the same kernel `K`:
`adjoint(R)_i = sum_j K j i * R j`. -/
def adjoint {m n : ℕ} (K : Fin m → Fin n → ℚ) (R : Fin m → ℚ) :
    Fin n → ℚ :=
  fun i => ∑ j, K j i * R j

/-- Euclidean inner product on a finite index type. -/
def dot {k : ℕ} (x y : Fin k → ℚ) : ℚ := ∑ i, x i * y i

end Operator

namespace Script

/-- An event constructing a TV-type (non-Tikhonov) solver. -/
def Event.isRefinementConstruct : Event → Bool
  | .constructSolver k _ _ _ => decide (k ≠ SolverKind.tikhonov)
  | _ => false

/-- The initial estimate handed to a solver at construction. -/
def Event.initOf : Event → Option Recon
  | .constructSolver _ _ _ i => some i
  | _ => none

/-- An event belonging to a solver pass (construction, run, or write). -/
def Event.isSolverEvent : Event → Bool
  | .constructSolver _ _ _ _ => true
  | .runSolver _ => true
  | .writeRecon _ _ _ => true
  | _ => false

/-- An event writing a reconstruction to the output directory. -/
def Event.isWriteRecon : Event → Bool
  | .writeRecon _ _ _ => true
  | _ => false

/-- The reader the script constructs once input validation has passed. -/
def readerKindOf (args : Args) : ReaderKind :=
  if args.dir_input.isSome then .imageSlicesDirectoryReader
  else .multipleImagesReader

/-- Exactly one of `--dir-input` and `--filenames` was given. -/
def exactlyOneInput (args : Args) : Prop :=
  (args.dir_input.isSome ∧ args.filenames = none) ∨
  (args.dir_input = none ∧ args.filenames.isSome)

/-- Sample argument records used to instantiate the claims. -/
def argsDirOnly : Args := { dir_input := some "data/" }

def argsBothInputs : Args :=
  { dir_input := some "data/", filenames := some ["a.nii.gz"] }

def argsNeitherInput : Args := {}

def argsHuberADMM : Args :=
  { dir_input := some "data/", reg_type := "huber", tv_solver := "ADMM" }

def argsTVADMM : Args :=
  { dir_input := some "data/", reg_type := "TV", tv_solver := "ADMM" }

def argsTVPD : Args := { dir_input := some "data/", reg_type := "TV" }

end Script

namespace Preprocessing

/-- Sample geometry of an input stack. -/
def sampleGeometry : ImageGeometry :=
  { size := [2, 2, 1], spacing := [1, 1, 1], origin := [0, 0, 0],
    direction := [1, 0, 0, 0, 1, 0, 0, 0, 1] }

/-- Sample geometry of the corrected volume as read back from file (slightly
shifted origin, as reading may lead to slight differences). -/
def sampleCorrectedGeometry : ImageGeometry :=
  { size := [2, 2, 1], spacing := [1, 1, 1], origin := [0, 0, 1/1000],
    direction := [1, 0, 0, 0, 1, 0, 0, 0, 1] }

def sampleVolume : SitkImage :=
  { geometry := sampleGeometry, data := [1, 2, 3, 4], pixelID := 9 }

def sampleMask : SitkImage :=
  { geometry := sampleGeometry, data := [1, 1, 0, 1], pixelID := 1 }

def sampleStack : Stack :=
  { sitk := sampleVolume, sitk_mask := sampleMask, filename := "stack0" }

def sampleN4 : N4BiasFieldCorrection :=
  { _stack := sampleStack, _use_mask := true, _use_verbose := false,
    _dir_tmp := "tmp/N4BiasFieldCorrection/", _stack_corrected := none }

def sampleCorrectedImage : SitkImage :=
  { geometry := sampleCorrectedGeometry, data := [2, 3, 4, 5], pixelID := 9 }

end Preprocessing

namespace Script

/-- On a successful run the trace is: optional script log, reader
construction, data read, the Tikhonov pass, then the dispatched refinement. -/
lemma main_run_ok_shape (args : Args) (sl : List String)
    (h : (main_run args sl).2 = none) :
    (main_run args sl).1 =
      (if args.log_script_execution then [Event.logScriptExecution] else [])
        ++ [Event.constructReader (readerKindOf args), Event.readData]
        ++ tikhonovTrace args ++ refinementTrace args := by
  by_cases h1 : args.filenames.isSome ∧ args.dir_input.isSome
  · exfalso
    simp [main_run, h1] at h
  · by_cases h2 : args.dir_input.isSome
    · have h5 : ¬ args.filenames.isSome = true := fun hA => h1 ⟨hA, h2⟩
      by_cases h3 : args.target_stack_index < sl.length
      · simp [main_run, mainAfterRead, h1, h2, h3, h5, readerKindOf]
      · exfalso
        simp [main_run, mainAfterRead, h1, h2, h3, h5] at h
    · by_cases h4 : args.filenames.isSome
      · by_cases h3 : args.target_stack_index < sl.length
        · simp [main_run, mainAfterRead, h1, h2, h3, h4, readerKindOf]
        · exfalso
          simp [main_run, mainAfterRead, h1, h2, h3, h4] at h
      · exfalso
        simp [main_run, h1, h2, h4] at h

end Script

namespace Script

lemma dispatch_eq_admm_iff (r t a : String) :
    dispatchTVSolver r t a = TVSolverChoice.admmSolver ↔
      (r = "TV" ∧ t = "ADMM") := by
  unfold dispatchTVSolver
  split
  · next h => exact iff_of_true rfl h
  · next h =>
    split
    · next h2 => exact iff_of_false (by simp) h
    · next h2 => exact iff_of_false (by simp) h

lemma dispatch_eq_pd_iff (r t a alg : String) :
    dispatchTVSolver r t a = TVSolverChoice.primalDualSolver alg ↔
      ((r = "TV" ∨ r = "huber") ∧ t = "PD" ∧ alg = a) := by
  unfold dispatchTVSolver
  split
  · next h =>
    refine iff_of_false (by simp) ?_
    rintro ⟨-, ht, -⟩
    rw [h.2] at ht
    exact absurd ht (by decide)
  · next h =>
    split
    · next h2 =>
      constructor
      · intro hx
        have ha : a = alg := by
          injection hx
        exact ⟨h2.1, h2.2, ha.symm⟩
      · rintro ⟨-, -, rfl⟩
        rfl
    · next h2 =>
      exact iff_of_false (by simp) (fun hx => h2 ⟨hx.1, hx.2.1⟩)

lemma dispatch_eq_none_iff (r t a : String) :
    dispatchTVSolver r t a = TVSolverChoice.noTVSolver ↔
      ¬((r = "TV" ∧ t = "ADMM") ∨ ((r = "TV" ∨ r = "huber") ∧ t = "PD")) := by
  unfold dispatchTVSolver
  split
  · next h => exact iff_of_false (by simp) (fun hn => hn (Or.inl h))
  · next h =>
    split
    · next h2 => exact iff_of_false (by simp) (fun hn => hn (Or.inr h2))
    · next h2 => exact iff_of_true rfl (fun hn => hn.elim h h2)

end Script

/-- Claim C3: the solver flavor run after the initial Tikhonov pass is
selected by `reg_type`, `tv_solver` and `alg_type` as a closed dispatch:
`reg_type="TV"` with `tv_solver="ADMM"` selects the ADMM solver;
`reg_type` in {TV, huber} with `tv_solver="PD"` selects the Primal-Dual
solver with the variant given by `pd_alg_type`; no other combination selects
a TV-type solver. -/
theorem C3_closed_dispatch (r t a : String) :
    (Script.dispatchTVSolver r t a = Script.TVSolverChoice.admmSolver ↔
      (r = "TV" ∧ t = "ADMM"))
  ∧ (∀ alg, Script.dispatchTVSolver r t a =
        Script.TVSolverChoice.primalDualSolver alg ↔
      ((r = "TV" ∨ r = "huber") ∧ t = "PD" ∧ alg = a))
  ∧ (Script.dispatchTVSolver r t a = Script.TVSolverChoice.noTVSolver ↔
      ¬((r = "TV" ∧ t = "ADMM") ∨ ((r = "TV" ∨ r = "huber") ∧ t = "PD"))) :=
  ⟨Script.dispatch_eq_admm_iff r t a,
   fun alg => Script.dispatch_eq_pd_iff r t a alg,
   Script.dispatch_eq_none_iff r t a⟩

/-- Witness for C3: the Huber/ADMM combination selects no TV-type solver. -/
theorem C3_closed_dispatch_witness :
    Script.dispatchTVSolver "huber" "ADMM" "ALG2" =
      Script.TVSolverChoice.noTVSolver :=
  (C3_closed_dispatch "huber" "ADMM" "ALG2").2.2.mpr (by decide)

/-- Claim C2 (code evaluation at the failing inputs): with both of
`--dir-input` and `--filenames` given, and with neither given, the script
aborts before constructing a data reader, reading any data or constructing
any solver — its whole trace is the script-execution log write — but the
raised error is a NameError: the raise statement names `Exceptions.IOError`
while `Exceptions` is never imported, so no configuration-error-class
exception is raised. -/
theorem C2_input_validation_abort_eval :
    (Script.main_run Script.argsBothInputs ["s0"]).2 =
      some (Script.ScriptError.nameError "Exceptions")
  ∧ (Script.main_run Script.argsBothInputs ["s0"]).1 =
      [Script.Event.logScriptExecution]
  ∧ (Script.main_run Script.argsNeitherInput ["s0"]).2 =
      some (Script.ScriptError.nameError "Exceptions")
  ∧ (Script.main_run Script.argsNeitherInput ["s0"]).1 =
      [Script.Event.logScriptExecution]
  ∧ Script.ScriptError.isConfigurationError
      (Script.ScriptError.nameError "Exceptions") = false :=
  ⟨rfl, rfl, rfl, rfl, rfl⟩

/-- Counterexample to claim C5 as stated: with a directory input whose reader
yields zero stacks, the script fails with an IndexError (from indexing the
empty stack list), which is not of the configuration-error class. -/
theorem C5_counterexample_zero_stacks :
    (Script.main_run Script.argsDirOnly []).2 =
      some Script.ScriptError.indexError
  ∧ Script.ScriptError.isConfigurationError
      Script.ScriptError.indexError = false :=
  ⟨rfl, rfl⟩

/-- Claim C5 (amended): if the data reader yields zero input stacks, the
program fails before any reconstruction is attempted (no solver event
occurs), but with an IndexError from indexing the empty stack list, not with
a ConfigurationError. -/
theorem C5_amended_zero_stacks_index_error (args : Script.Args)
    (h : Script.exactlyOneInput args) :
    (Script.main_run args []).2 = some Script.ScriptError.indexError
  ∧ ∀ e ∈ (Script.main_run args []).1,
      Script.Event.isSolverEvent e = false := by
  rcases h with ⟨h1, h2⟩ | ⟨h1, h2⟩ <;>
    by_cases hl : args.log_script_execution <;>
    refine ⟨?_, ?_⟩ <;>
    simp [Script.main_run, Script.mainAfterRead, h1, h2, hl,
      Script.Event.isSolverEvent]

/-- Witness for C5 (amended) at a concrete argument record. -/
theorem C5_amended_zero_stacks_index_error_witness :
    Script.exactlyOneInput Script.argsDirOnly
  ∧ (Script.main_run Script.argsDirOnly []).2 =
      some Script.ScriptError.indexError :=
  ⟨Or.inl ⟨rfl, rfl⟩,
   (C5_amended_zero_stacks_index_error Script.argsDirOnly
     (Or.inl ⟨rfl, rfl⟩)).1⟩

namespace Script

lemma prefix_no_refinement_construct (args : Args) :
    ((if args.log_script_execution then [Event.logScriptExecution] else [])
        ++ [Event.constructReader (readerKindOf args), Event.readData]
        ++ tikhonovTrace args).all
      (fun e => !e.isRefinementConstruct) = true := by
  rcases Bool.eq_false_or_eq_true args.log_script_execution with hl | hl <;>
    rw [hl] <;> rfl

end Script

/-- Counterexample to claim C1 as stated: with `reg_type="huber"` and
`tv_solver="ADMM"`, Huber regularization is requested and the run completes,
yet no ADMM or Primal-Dual solver is ever constructed, so no Tikhonov
reconstruction is handed to one as an initial estimate. -/
theorem C1_counterexample_huber_admm :
    Script.argsHuberADMM.reg_type = "huber"
  ∧ (Script.main_run Script.argsHuberADMM ["s0"]).2 = none
  ∧ (Script.main_run Script.argsHuberADMM ["s0"]).1.all
      (fun e => !e.isRefinementConstruct) = true :=
  ⟨rfl, rfl, rfl⟩

/-- Claim C1 (amended): whenever TV or Huber regularization is requested and
the dispatch actually selects a TV-type solver (every combination except
`reg_type="huber"` with `tv_solver="ADMM"`), the Tikhonov run completes first
and a copy of its reconstruction is the initial estimate handed to the ADMM
or Primal-Dual solver; neither constructs its own initial estimate. -/
theorem C1_amended_warm_start (args : Script.Args) (sl : List String)
    (hok : (Script.main_run args sl).2 = none)
    (hreq : args.reg_type = "TV" ∨ args.reg_type = "huber")
    (hdisp : Script.dispatchTVSolver args.reg_type args.tv_solver
      args.pd_alg_type ≠ Script.TVSolverChoice.noTVSolver) :
    ∃ t1 t2, (Script.main_run args sl).1 = t1 ++ t2
      ∧ Script.Event.runSolver Script.SolverKind.tikhonov ∈ t1
      ∧ (∀ e ∈ t1, Script.Event.isRefinementConstruct e = false)
      ∧ (∃ e ∈ t2, Script.Event.isRefinementConstruct e = true)
      ∧ (∀ e ∈ t2, Script.Event.isRefinementConstruct e = true →
          Script.Event.initOf e = some (Script.Recon.stackCopy
            (Script.Recon.solverOutput Script.SolverKind.tikhonov
              (Script.recon0Spec args)))) := by
  refine ⟨(if args.log_script_execution then [Script.Event.logScriptExecution]
        else [])
      ++ [Script.Event.constructReader (Script.readerKindOf args),
          Script.Event.readData]
      ++ Script.tikhonovTrace args,
    Script.refinementTrace args,
    Script.main_run_ok_shape args sl hok, ?_, ?_, ?_, ?_⟩
  · simp [Script.tikhonovTrace]
  · intro e he
    have hall :=
      List.all_eq_true.mp (Script.prefix_no_refinement_construct args) e he
    simpa using hall
  · cases hd : Script.dispatchTVSolver args.reg_type args.tv_solver
        args.pd_alg_type with
    | noTVSolver => exact absurd hd hdisp
    | admmSolver =>
        refine ⟨Script.Event.constructSolver Script.SolverKind.admm none none
          (Script.Recon.stackCopy (Script.Recon.solverOutput
            Script.SolverKind.tikhonov (Script.recon0Spec args))), ?_, rfl⟩
        simp [Script.refinementTrace, hd]
    | primalDualSolver alg =>
        refine ⟨Script.Event.constructSolver Script.SolverKind.primalDual
          (some args.reg_type) (some alg)
          (Script.Recon.stackCopy (Script.Recon.solverOutput
            Script.SolverKind.tikhonov (Script.recon0Spec args))), ?_, rfl⟩
        simp [Script.refinementTrace, hd]
  · intro e he hre
    cases hd : Script.dispatchTVSolver args.reg_type args.tv_solver
        args.pd_alg_type with
    | noTVSolver => simp [Script.refinementTrace, hd] at he
    | admmSolver =>
        simp [Script.refinementTrace, hd] at he
        rcases he with rfl | rfl | rfl
        · rfl
        · simp [Script.Event.isRefinementConstruct] at hre
        · simp [Script.Event.isRefinementConstruct] at hre
    | primalDualSolver alg =>
        simp [Script.refinementTrace, hd] at he
        rcases he with rfl | rfl | rfl
        · rfl
        · simp [Script.Event.isRefinementConstruct] at hre
        · simp [Script.Event.isRefinementConstruct] at hre

/-- Witness for C1 (amended) at a concrete argument record requesting TV
regularization with the primal-dual solver. -/
theorem C1_amended_warm_start_witness :
    (Script.main_run Script.argsTVPD ["s0"]).2 = none
  ∧ ∃ t1 t2, (Script.main_run Script.argsTVPD ["s0"]).1 = t1 ++ t2
      ∧ Script.Event.runSolver Script.SolverKind.tikhonov ∈ t1
      ∧ (∀ e ∈ t1, Script.Event.isRefinementConstruct e = false)
      ∧ (∃ e ∈ t2, Script.Event.isRefinementConstruct e = true)
      ∧ (∀ e ∈ t2, Script.Event.isRefinementConstruct e = true →
          Script.Event.initOf e = some (Script.Recon.stackCopy
            (Script.Recon.solverOutput Script.SolverKind.tikhonov
              (Script.recon0Spec Script.argsTVPD)))) :=
  ⟨rfl, C1_amended_warm_start Script.argsTVPD ["s0"] rfl (Or.inl rfl)
    (by decide)⟩

/-- Claim C9: if `reg_type="huber"` and `tv_solver="ADMM"`, no TV-type solver
runs at all: the program falls through both refinement branches and the only
reconstruction written is the initial Tikhonov result. -/
theorem C9_huber_admm_falls_through (args : Script.Args) (sl : List String)
    (hreg : args.reg_type = "huber") (htv : args.tv_solver = "ADMM")
    (hok : (Script.main_run args sl).2 = none) :
    (∀ e ∈ (Script.main_run args sl).1,
      Script.Event.isRefinementConstruct e = false)
  ∧ (Script.main_run args sl).1.filter
      (fun e => Script.Event.isWriteRecon e) =
      [Script.Event.writeRecon args.dir_output
        (Script.settingSpecificFilename Script.SolverKind.tikhonov
          (some "TK1") none)
        (Script.Recon.solverOutput Script.SolverKind.tikhonov
          (Script.recon0Spec args))] := by
  have hdisp : Script.dispatchTVSolver args.reg_type args.tv_solver
      args.pd_alg_type = Script.TVSolverChoice.noTVSolver := by
    rw [hreg, htv]
    rfl
  have hrt : Script.refinementTrace args = [] := by
    simp [Script.refinementTrace, hdisp]
  rw [Script.main_run_ok_shape args sl hok, hrt]
  constructor
  · intro e he
    rw [List.append_nil] at he
    have hall :=
      List.all_eq_true.mp (Script.prefix_no_refinement_construct args) e he
    simpa using hall
  · rcases Bool.eq_false_or_eq_true args.log_script_execution with hl | hl <;>
      rw [hl] <;> rfl

/-- Witness for C9 at a concrete argument record. -/
theorem C9_huber_admm_falls_through_witness :
    Script.argsHuberADMM.reg_type = "huber"
  ∧ Script.argsHuberADMM.tv_solver = "ADMM"
  ∧ (Script.main_run Script.argsHuberADMM ["s0"]).1.filter
      (fun e => Script.Event.isWriteRecon e) =
      [Script.Event.writeRecon Script.argsHuberADMM.dir_output
        (Script.settingSpecificFilename Script.SolverKind.tikhonov
          (some "TK1") none)
        (Script.Recon.solverOutput Script.SolverKind.tikhonov
          (Script.recon0Spec Script.argsHuberADMM))] :=
  ⟨rfl, rfl,
   (C9_huber_admm_falls_through Script.argsHuberADMM ["s0"] rfl rfl rfl).2⟩

/-- Claim C10: the initial solver pass always constructs the Tikhonov solver
with `reg_type` fixed to `"TK1"` regardless of the `--reg-type` flag, and its
reconstruction is always written to the output directory under its
setting-specific filename, even when a TV/Huber refinement follows (in which
case a further, different reconstruction is written as well). -/
theorem C10_initial_tikhonov_pass (args : Script.Args) (sl : List String)
    (hok : (Script.main_run args sl).2 = none) :
    Script.Event.constructSolver Script.SolverKind.tikhonov (some "TK1") none
      (Script.recon0Spec args) ∈ (Script.main_run args sl).1
  ∧ Script.Event.writeRecon args.dir_output
      (Script.settingSpecificFilename Script.SolverKind.tikhonov
        (some "TK1") none)
      (Script.Recon.solverOutput Script.SolverKind.tikhonov
        (Script.recon0Spec args)) ∈ (Script.main_run args sl).1
  ∧ (Script.refinementTrace args ≠ [] →
      ∃ fn r, r ≠ Script.Recon.solverOutput Script.SolverKind.tikhonov
          (Script.recon0Spec args)
        ∧ Script.Event.writeRecon args.dir_output fn r ∈
            (Script.main_run args sl).1) := by
  rw [Script.main_run_ok_shape args sl hok]
  refine ⟨?_, ?_, ?_⟩
  · simp [Script.tikhonovTrace]
  · simp [Script.tikhonovTrace]
  · intro hne
    cases hd : Script.dispatchTVSolver args.reg_type args.tv_solver
        args.pd_alg_type with
    | noTVSolver =>
        exact absurd (by simp [Script.refinementTrace, hd]) hne
    | admmSolver =>
        refine ⟨Script.settingSpecificFilename Script.SolverKind.admm none
          none,
          Script.Recon.solverOutput Script.SolverKind.admm
            (Script.Recon.stackCopy (Script.Recon.solverOutput
              Script.SolverKind.tikhonov (Script.recon0Spec args))),
          by simp, ?_⟩
        simp [Script.refinementTrace, hd]
    | primalDualSolver alg =>
        refine ⟨Script.settingSpecificFilename Script.SolverKind.primalDual
          (some args.reg_type) (some alg),
          Script.Recon.solverOutput Script.SolverKind.primalDual
            (Script.Recon.stackCopy (Script.Recon.solverOutput
              Script.SolverKind.tikhonov (Script.recon0Spec args))),
          by simp, ?_⟩
        simp [Script.refinementTrace, hd]

/-- Witness for C10 at a concrete argument record requesting a TV/ADMM
refinement. -/
theorem C10_initial_tikhonov_pass_witness :
    (Script.main_run Script.argsTVADMM ["s0"]).2 = none
  ∧ Script.Event.constructSolver Script.SolverKind.tikhonov (some "TK1") none
      (Script.recon0Spec Script.argsTVADMM) ∈
        (Script.main_run Script.argsTVADMM ["s0"]).1 :=
  ⟨rfl, (C10_initial_tikhonov_pass Script.argsTVADMM ["s0"] rfl).1⟩

/-- Claim C4: for every volume `V` and every slice-space residual `R`, the
forward/adjoint operator pair satisfies the transpose identity
`dot (forward V) R = dot V (adjoint R)` with respect to the same
sampling/interpolation kernel `K`: the adjoint is the exact mathematical
transpose of the forward operator. -/
theorem C4_forward_adjoint_transpose {m n : ℕ} (K : Fin m → Fin n → ℚ)
    (V : Fin n → ℚ) (R : Fin m → ℚ) :
    Operator.dot (Operator.forward K V) R =
      Operator.dot V (Operator.adjoint K R) := by
  unfold Operator.dot Operator.forward Operator.adjoint
  simp_rw [Finset.sum_mul, Finset.mul_sum]
  rw [Finset.sum_comm]
  refine Finset.sum_congr rfl fun i _ => Finset.sum_congr rfl fun j _ => ?_
  ring

/-- Claim C6: `run_bias_field_correction` invokes the bias-field correction as
an out-of-process image filter: it writes the input volume file (and the mask
file exactly when `_use_mask` is set), executes the external command, reads
back the corrected volume file, and afterwards
`get_bias_field_corrected_stack` returns the corrected Stack built from that
output file. -/
theorem C6_out_of_process_correction
    (self : Preprocessing.N4BiasFieldCorrection)
    (correctedFileImage : Preprocessing.SitkImage) :
    (self.run_bias_field_correction correctedFileImage).2 =
      [Preprocessing.Effect.clearDirectory self._dir_tmp,
       Preprocessing.Effect.writeImage
         (self._dir_tmp ++ self._stack.get_filename ++ ".nii.gz")
         self._stack.sitk] ++
      (if self._use_mask then
        [Preprocessing.Effect.writeImage
          (self._dir_tmp ++ self._stack.get_filename ++ "_mask.nii.gz")
          self._stack.sitk_mask]
       else []) ++
      [Preprocessing.Effect.executeCommand self.correctionCommand,
       Preprocessing.Effect.readImage
         (self._dir_tmp ++ self._stack.get_filename ++ "_corrected.nii.gz")]
  ∧ (self.run_bias_field_correction
        correctedFileImage).1.get_bias_field_corrected_stack =
      some (Preprocessing.Stack.from_sitk_image correctedFileImage
        self._stack.get_filename
        (Preprocessing.Resample self._stack.sitk_mask correctedFileImage 0
          self._stack.sitk_mask.pixelID)) :=
  ⟨rfl, rfl⟩

/-- Claim C7: the corrected Stack produced by `run_bias_field_correction`
carries a mask resampled onto the corrected volume grid, so its mask geometry
exactly matches its volume geometry. -/
theorem C7_corrected_stack_mask_geometry
    (self : Preprocessing.N4BiasFieldCorrection)
    (correctedFileImage : Preprocessing.SitkImage)
    (s : Preprocessing.Stack)
    (h : (self.run_bias_field_correction
        correctedFileImage).1._stack_corrected = some s) :
    s.maskMatchesVolumeGeometry := by
  have hs : s = Preprocessing.Stack.from_sitk_image correctedFileImage
      self._stack.get_filename
      (Preprocessing.Resample self._stack.sitk_mask correctedFileImage 0
        self._stack.sitk_mask.pixelID) := by
    have h2 := h.symm.trans
      (rfl :
        (self.run_bias_field_correction
          correctedFileImage).1._stack_corrected =
        some (Preprocessing.Stack.from_sitk_image correctedFileImage
          self._stack.get_filename
          (Preprocessing.Resample self._stack.sitk_mask correctedFileImage 0
            self._stack.sitk_mask.pixelID)))
    exact Option.some.inj h2
  subst hs
  rfl

/-- Witness for C7 at a concrete object and corrected image. -/
theorem C7_corrected_stack_mask_geometry_witness :
    (Preprocessing.Stack.from_sitk_image Preprocessing.sampleCorrectedImage
      Preprocessing.sampleStack.get_filename
      (Preprocessing.Resample Preprocessing.sampleMask
        Preprocessing.sampleCorrectedImage 0
        Preprocessing.sampleMask.pixelID)).maskMatchesVolumeGeometry :=
  C7_corrected_stack_mask_geometry Preprocessing.sampleN4
    Preprocessing.sampleCorrectedImage _ rfl

/-- Claim C8: a correction operation produces a new derived Stack and leaves
the input Stack object unchanged: its image, mask, and filename are the same
before and after the call. -/
theorem C8_input_stack_unchanged
    (self : Preprocessing.N4BiasFieldCorrection)
    (correctedFileImage : Preprocessing.SitkImage) :
    (self.run_bias_field_correction correctedFileImage).1._stack.sitk =
      self._stack.sitk
  ∧ (self.run_bias_field_correction correctedFileImage).1._stack.sitk_mask =
      self._stack.sitk_mask
  ∧ (self.run_bias_field_correction correctedFileImage).1._stack.filename =
      self._stack.filename :=
  ⟨rfl, rfl, rfl⟩
